import Mathlib

/-!
Shallow embedding of `src/streamlit_app.py`, a Streamlit dashboard that
compares a NOAA climate-anomaly time series against a synthetic dataset
relating summer temperature to math scores.  Dates are modelled exactly;
floating-point values are modelled as real numbers; the numpy random
generator is modelled as an abstract deterministic stream determined by
its seed; the global RNG state before a call is an explicit parameter.
-/

/-- Calendar date, modelling a pandas Timestamp at day granularity. -/
structure Date where
  year : Int
  month : Nat
  day : Nat
deriving DecidableEq

/-- Lexicographic key for comparing dates, as pandas Timestamps compare. -/
def Date.key (d : Date) : Int :=
  d.year * 10000 + (d.month : Int) * 100 + (d.day : Int)

instance : LE Date := ⟨fun a b => a.key ≤ b.key⟩

instance (a b : Date) : Decidable (a ≤ b) :=
  inferInstanceAs (Decidable (a.key ≤ b.key))

/-- Gregorian leap-year rule, as used by pandas date arithmetic. -/
def isLeap (y : Int) : Bool :=
  (y % 4 == 0 && y % 100 != 0) || (y % 400 == 0)

/-- Number of days in a month of a given year. -/
def daysInMonth (y : Int) (m : Nat) : Nat :=
  if m = 2 then (if isLeap y then 29 else 28)
  else if m = 4 ∨ m = 6 ∨ m = 9 ∨ m = 11 then 30
  else 31

/-- The i-th element of `pd.date_range("2000-01-01", periods, freq="M")`:
month-end dates starting at 2000-01-31. -/
def monthEndDate (i : Nat) : Date :=
  let y : Int := 2000 + (i / 12 : Nat)
  let m : Nat := 1 + i % 12
  ⟨y, m, daysInMonth y m⟩

/-- A row of the processed NOAA frame: the `date` and `value` columns kept
by `load_noaa_data` (the `anomaly` column renamed to `value`). -/
structure NoaaRow where
  date : Date
  value : ℝ

/-- A row of the fetched NOAA CSV before processing: the date after
`pd.to_datetime(..., errors="coerce")` (`none` models NaT from a parse
failure) and the `anomaly` column. -/
structure RawNoaaRow where
  date : Option Date
  anomaly : ℝ

/-- A row of the user dataset built by `load_user_data`: exactly the columns
`date`, `summer_avg_temp_C` and `math_score`. -/
structure UserRow where
  date : Date
  summer_avg_temp_C : ℝ
  math_score : ℝ

/-- The numpy global random generator, abstractly: `seedState s` is the
internal state right after `np.random.seed(s)`, `next` advances the state
by one draw, and `gaussOut` reads the standard-normal deviate a state
emits.  The structure is fixed across runs (numpy's algorithm does not
change); only the ambient state varies. -/
structure Rng where
  seedState : Nat → Nat
  next : Nat → Nat
  gaussOut : Nat → ℝ

/-- The stream of standard-normal draws starting from state `st`. -/
def gaussSeq (g : Rng) (st : Nat) (i : Nat) : ℝ :=
  g.gaussOut (g.next^[i] st)

/-- `load_user_data` (lines 39-50): seeds the generator with 42 (discarding
the ambient state `prior`), then builds 21 rows, one per year 2000..2020,
with `temps = 22 + 0.05*(years-2000) + normal(0,0.3)` and
`scores = 500 - (temps-22)*5 + normal(0,5)`; the date column is
`pd.to_datetime(years, format="%Y")`, i.e. January 1 of each year. -/
noncomputable def load_user_data (g : Rng) (prior : Nat) : List UserRow :=
  let _ := prior
  let st := g.seedState 42
  let z := gaussSeq g st
  (List.range 21).map fun (i : Nat) =>
    let temp : ℝ := 22 + 0.05 * (i : ℝ) + 0.3 * z i
    { date := ⟨2000 + (i : Int), 1, 1⟩
      summer_avg_temp_C := temp
      math_score := 500 - (temp - 22) * 5 + 5 * z (21 + i) }

/-- The widgets the sidebar offers for tab 2 (lines 107-114): a date range,
a smoothing-window slider and a standardize checkbox.  This is the entire
input surface of tab 2; there is no upload or data-entry widget. -/
structure Tab2Input where
  startDate : Date
  endDate : Date
  smoothingWindow : Nat
  standardize : Bool
deriving DecidableEq

/-- The dataset tab 2 compares (line 104): always the output of
`load_user_data`, whatever the user input is. -/
noncomputable def tab2Dataset (g : Rng) (prior : Nat) (inp : Tab2Input) : List UserRow :=
  let _ := inp
  load_user_data g prior

/-- Degree-1 least-squares fit, the semantics of `np.polyfit(x, y, 1)`:
returns `(slope, intercept)` from the normal equations. -/
noncomputable def polyfit1 (xs ys : List ℝ) : ℝ × ℝ :=
  let n : ℝ := xs.length
  let sx := xs.sum
  let sy := ys.sum
  let sxx := (xs.map fun x => x * x).sum
  let sxy := ((xs.zip ys).map fun p => p.1 * p.2).sum
  let slope := (n * sxy - sx * sy) / (n * sxx - sx * sx)
  (slope, (sy - slope * sx) / n)

/-- `np.polyval` for a degree-1 polynomial `(slope, intercept)`. -/
def polyval1 (c : ℝ × ℝ) (x : ℝ) : ℝ :=
  c.1 * x + c.2

/-- What the scatter section of tab 2 renders. -/
inductive ScatterRender where
  | olsChart (xs ys : List ℝ)
  | fallbackChart (xs ys line : List ℝ)

/-- The try/except of lines 137-150: if drawing the OLS-trendline scatter
raises (`olsFails`), fall back to `np.polyfit(..., 1)` / `np.polyval` and
plot the scatter plus that manual line; otherwise render the OLS chart. -/
noncomputable def renderScatter (olsFails : Bool) (xs ys : List ℝ) : ScatterRender :=
  if olsFails then
    let c := polyfit1 xs ys
    .fallbackChart xs ys (xs.map (polyval1 c))
  else
    .olsChart xs ys

/-- Claim C1 (counterexample): it is false that for some user input the
tab-2 dataset differs from the built-in generator's output, i.e. nothing
the user can enter makes the compared data user-supplied. -/
theorem c1_counterexample :
    ¬ ∃ (g : Rng) (prior : Nat) (u : Tab2Input),
      tab2Dataset g prior u ≠ load_user_data g prior := by
  rintro ⟨g, prior, u, h⟩
  exact h rfl

/-- Claim C1 (amended): the second dataset is never user-supplied; for
every user input, tab 2 compares the output of the built-in synthetic
generator `load_user_data`, and the input surface offers no upload path. -/
theorem c1_dataset_always_internal (g : Rng) (prior : Nat) (u : Tab2Input) :
    tab2Dataset g prior u = load_user_data g prior :=
  rfl

/-- Claim C2: if the OLS scatter raises, the fallback computes the
degree-1 polyfit coefficients of `math_score` against
`summer_avg_temp_C`, evaluates that polynomial at the temperature values,
and plots the scatter plus that line; if no exception is raised the
fallback branch is not executed. -/
theorem c2_ols_fallback (xs ys : List ℝ) :
    renderScatter true xs ys =
      .fallbackChart xs ys (xs.map (polyval1 (polyfit1 xs ys)))
    ∧ renderScatter false xs ys = .olsChart xs ys := by
  constructor <;> rfl

/-- Claim C8: `load_user_data` seeds the RNG with 42, so its output does
not depend on the ambient RNG state: every call returns the identical
frame of exactly 21 rows, one per year 2000..2020 (dated January 1), with
the columns fixed by `UserRow`. -/
theorem c8_load_user_data_deterministic (g : Rng) (p q : Nat) :
    load_user_data g p = load_user_data g q
    ∧ (load_user_data g p).length = 21
    ∧ (load_user_data g p).map UserRow.date =
        (List.range 21).map (fun i => ⟨2000 + (i : Int), 1, 1⟩) := by
  refine ⟨rfl, ?_, ?_⟩
  · simp [load_user_data]
  · simp [load_user_data]

/-- Result of fetching the NOAA CSV: parsed rows, or an exception raised
anywhere during fetch/parsing. -/
inductive FetchResult where
  | ok (rows : List RawNoaaRow)
  | err

/-- The success path of `load_noaa_data` (lines 27-32): coerce the date
column (parse failures become missing), drop rows with a missing date,
keep rows whose date is not after today, rename `anomaly` to `value` and
keep only the `date` and `value` columns. -/
def noaaSuccessFrame (rows : List RawNoaaRow) (today : Date) : List NoaaRow :=
  (rows.filterMap fun r => r.date.map fun d => NoaaRow.mk d r.anomaly).filter
    fun r => decide (r.date ≤ today)

/-- The fallback frame of `load_noaa_data` (lines 34-36): 240 month-end
dates from 2000-01-31 onward, values `np.sin(np.linspace(0, 20, 240))`
plus unseeded normal noise, modelled by the abstract stream `noise`. -/
noncomputable def noaaSyntheticFrame (noise : Nat → ℝ) : List NoaaRow :=
  (List.range 240).map fun (i : Nat) =>
    ⟨monthEndDate i, Real.sin (20 * (i : ℝ) / 239) + noise i⟩

/-- `load_noaa_data` (lines 23-37): a successful fetch yields the processed
frame with flag `true`; any exception yields the synthetic frame with flag
`false`. -/
noncomputable def load_noaa_data (today : Date) (noise : Nat → ℝ) :
    FetchResult → List NoaaRow × Bool
  | .ok rows => (noaaSuccessFrame rows today, true)
  | .err => (noaaSyntheticFrame noise, false)

/-- Lines 64-65: the warning is shown exactly when the success flag is
`false`. -/
def tab1ShowsWarning (success : Bool) : Bool :=
  !success

/-- Line 76: `df_noaa_vis`, the rows of the loaded NOAA frame whose date
lies in the selected closed range. -/
def df_noaa_vis (noaa : List NoaaRow) (s e : Date) : List NoaaRow :=
  noaa.filter fun r => decide (s ≤ r.date) && decide (r.date ≤ e)

/-- Line 117: `df_vis`, the rows of the user frame whose date lies in the
selected closed range. -/
def df_vis (user : List UserRow) (s e : Date) : List UserRow :=
  user.filter fun r => decide (s ≤ r.date) && decide (r.date ≤ e)

/-- Claim C3: on any exception `load_noaa_data` returns flag `false` and a
synthetic frame of exactly 240 monthly (month-end) rows starting 2000-01,
whose i-th value is the sine curve plus noise; on success it returns the
processed fetched frame with flag `true`; the caller shows the warning
exactly when the flag is `false`. -/
theorem c3_load_noaa (today : Date) (noise : Nat → ℝ) (raw : List RawNoaaRow)
    (i : Nat) (hi : i < 240) :
    (load_noaa_data today noise .err).2 = false
    ∧ (load_noaa_data today noise .err).1.length = 240
    ∧ (load_noaa_data today noise .err).1.map NoaaRow.date =
        (List.range 240).map monthEndDate
    ∧ monthEndDate 0 = ⟨2000, 1, 31⟩
    ∧ (load_noaa_data today noise .err).1[i]? =
        some ⟨monthEndDate i, Real.sin (20 * (i : ℝ) / 239) + noise i⟩
    ∧ (load_noaa_data today noise (.ok raw)).1 = noaaSuccessFrame raw today
    ∧ (load_noaa_data today noise (.ok raw)).2 = true
    ∧ tab1ShowsWarning false = true ∧ tab1ShowsWarning true = false := by
  refine ⟨rfl, ?_, ?_, by decide, ?_, rfl, rfl, rfl, rfl⟩
  · simp [load_noaa_data, noaaSyntheticFrame]
  · simp [load_noaa_data, noaaSyntheticFrame, List.map_map]
  · simp [load_noaa_data, noaaSyntheticFrame, List.getElem?_map,
      List.getElem?_range, hi]

/-- Witness for C3 at a concrete `today`, zero noise, empty raw frame and
index 0. -/
theorem c3_load_noaa_witness :
    0 < 240
    ∧ (load_noaa_data ⟨2025, 10, 12⟩ (fun _ => (0 : ℝ)) .err).1.length = 240 :=
  ⟨by decide,
    (c3_load_noaa ⟨2025, 10, 12⟩ (fun _ => (0 : ℝ)) [] 0 (by decide)).2.1⟩

/-- Claim C4: date filtering is inclusive and exact for both frames: the
visualized rows are exactly the loaded rows with `start <= date <= end`,
kept in their original order (a sublist of the loaded frame). -/
theorem c4_date_filter (noaa : List NoaaRow) (user : List UserRow)
    (s e : Date) (r : NoaaRow) (u : UserRow) :
    (r ∈ df_noaa_vis noaa s e ↔ r ∈ noaa ∧ s ≤ r.date ∧ r.date ≤ e)
    ∧ (df_noaa_vis noaa s e).Sublist noaa
    ∧ (u ∈ df_vis user s e ↔ u ∈ user ∧ s ≤ u.date ∧ u.date ≤ e)
    ∧ (df_vis user s e).Sublist user := by
  refine ⟨?_, List.filter_sublist _, ?_, List.filter_sublist _⟩ <;>
    simp [df_noaa_vis, df_vis, List.mem_filter, and_assoc]

/-- Claim C9: on the successful fetch path every returned row has a parsed
(non-missing) date drawn from some raw row, that date is not after today,
and only the date and value columns survive; conversely every raw row with
a parsed date not after today is kept. -/
theorem c9_success_path (raw : List RawNoaaRow) (today : Date) :
    (∀ r ∈ noaaSuccessFrame raw today,
      r.date ≤ today ∧ ∃ rr ∈ raw, rr.date = some r.date ∧ rr.anomaly = r.value)
    ∧ (∀ rr ∈ raw, ∀ d : Date, rr.date = some d → d ≤ today →
        (⟨d, rr.anomaly⟩ : NoaaRow) ∈ noaaSuccessFrame raw today) := by
  constructor
  · intro r hr
    rw [noaaSuccessFrame, List.mem_filter] at hr
    obtain ⟨hmem, hdec⟩ := hr
    rw [List.mem_filterMap] at hmem
    obtain ⟨rr, hrr, heq⟩ := hmem
    rw [Option.map_eq_some'] at heq
    obtain ⟨d, hd, hmk⟩ := heq
    refine ⟨of_decide_eq_true hdec, rr, hrr, ?_, ?_⟩
    · rw [hd, ← hmk]
    · rw [← hmk]
  · intro rr hrr d hd hle
    rw [noaaSuccessFrame, List.mem_filter]
    refine ⟨List.mem_filterMap.mpr ⟨rr, hrr, ?_⟩, decide_eq_true hle⟩
    rw [hd]
    rfl

/-- Witness for C9: a raw frame with one parseable past date, one
unparseable date and one future date; the past row survives. -/
theorem c9_success_path_witness :
    (⟨⟨2020, 5, 1⟩, (1 : ℝ)⟩ : NoaaRow) ∈
      noaaSuccessFrame
        [⟨some ⟨2020, 5, 1⟩, 1⟩, ⟨none, 2⟩, ⟨some ⟨2030, 1, 1⟩, 3⟩]
        ⟨2025, 1, 1⟩ :=
  (c9_success_path
      [⟨some ⟨2020, 5, 1⟩, 1⟩, ⟨none, 2⟩, ⟨some ⟨2030, 1, 1⟩, 3⟩]
      ⟨2025, 1, 1⟩).2
    ⟨some ⟨2020, 5, 1⟩, 1⟩ (List.mem_cons_self _ _) ⟨2020, 5, 1⟩ rfl (by decide)

/-- Semantics of `Series.rolling(w).mean()` with the default
`min_periods = w`: position `i` holds the mean of the `w` values ending
at `i`, and is missing (NaN) while fewer than `w` values are available. -/
noncomputable def rollingMean (w : Nat) (xs : List ℝ) : List (Option ℝ) :=
  (List.range xs.length).map fun i =>
    if w ≤ i + 1 then some (((xs.drop (i + 1 - w)).take w).sum / w) else none

/-- Line 90: the `MA12` column, the 12-month rolling mean of the filtered
NOAA values. -/
noncomputable def ma12Column (df : List NoaaRow) : List (Option ℝ) :=
  rollingMean 12 (df.map NoaaRow.value)

/-- Lines 119-120: `math_score` is replaced by its rolling mean only when
the chosen window is positive; a window of 0 leaves the column as is. -/
noncomputable def applySmoothing (w : Nat) (scores : List ℝ) : List (Option ℝ) :=
  if 0 < w then rollingMean w scores else scores.map some

/-- Claim C5: the rolling mean with window `w` maps position `i` to the
arithmetic mean of the `w` values at positions `i-w+1..i` and to missing
for the first `w-1` positions; it is applied with `w = 12` to the filtered
NOAA values (column MA12) and with `w = smoothing_window` to `math_score`
only when that window is positive; window 0 leaves `math_score`
unchanged. -/
theorem c5_rolling_mean (w : Nat) (xs : List ℝ) (noaa : List NoaaRow)
    (s e : Date) (i : Nat) (hw : 0 < w) (hi : i < xs.length) :
    (rollingMean w xs).length = xs.length
    ∧ (i + 1 < w → (rollingMean w xs)[i]? = some none)
    ∧ (w ≤ i + 1 →
        ((xs.drop (i + 1 - w)).take w).length = w
        ∧ (rollingMean w xs)[i]? =
            some (some (((xs.drop (i + 1 - w)).take w).sum / w)))
    ∧ ma12Column (df_noaa_vis noaa s e) =
        rollingMean 12 ((df_noaa_vis noaa s e).map NoaaRow.value)
    ∧ applySmoothing w xs = rollingMean w xs
    ∧ applySmoothing 0 xs = xs.map some := by
  refine ⟨by simp [rollingMean], ?_, ?_, rfl, if_pos hw, if_neg (by simp)⟩
  · intro hlt
    simp [rollingMean, List.getElem?_map, List.getElem?_range, hi,
      Nat.not_le_of_lt hlt]
  · intro hge
    constructor
    · rw [List.length_take, List.length_drop]
      omega
    · simp [rollingMean, List.getElem?_map, List.getElem?_range, hi, hge]

/-- Witness for C5 with window 2 on a three-element series at the last
position. -/
theorem c5_rolling_mean_witness :
    0 < 2 ∧ (rollingMean 2 [1, 2, 3]).length = ([1, 2, 3] : List ℝ).length :=
  ⟨by decide,
    (c5_rolling_mean 2 [1, 2, 3] [] ⟨2000, 1, 1⟩ ⟨2000, 1, 1⟩ 2 (by decide)
      (by simp)).1⟩

/-- `Series.mean()`: the arithmetic mean of a series. -/
noncomputable def listMean (xs : List ℝ) : ℝ :=
  xs.sum / xs.length

/-- `Series.var()`: the sample variance (denominator `n - 1`). -/
noncomputable def sampleVar (xs : List ℝ) : ℝ :=
  (xs.map fun x => (x - listMean xs) ^ 2).sum / ((xs.length : ℝ) - 1)

/-- `Series.std()`: the sample standard deviation. -/
noncomputable def sampleStd (xs : List ℝ) : ℝ :=
  Real.sqrt (sampleVar xs)

/-- Line 122: the standardize branch replaces the column by
`(x - mean) / std` computed over the current column. -/
noncomputable def standardizeColumn (xs : List ℝ) : List ℝ :=
  xs.map fun x => (x - listMean xs) / sampleStd xs

/-- Sample covariance of two (aligned) columns, denominator `n - 1`. -/
noncomputable def sampleCov (xs ys : List ℝ) : ℝ :=
  ((xs.zip ys).map fun p => (p.1 - listMean xs) * (p.2 - listMean ys)).sum /
    ((xs.length : ℝ) - 1)

/-- `Series.corr` (line 153): Pearson correlation, covariance over the
product of the sample standard deviations. -/
noncomputable def pearsonCorr (xs ys : List ℝ) : ℝ :=
  sampleCov xs ys / (sampleStd xs * sampleStd ys)

lemma listSum_map_sub (f g : α → ℝ) (l : List α) :
    (l.map fun x => f x - g x).sum = (l.map f).sum - (l.map g).sum := by
  induction l with
  | nil => simp
  | cons a t ih =>
    simp only [List.map_cons, List.sum_cons, ih]
    ring

lemma listSum_map_const (l : List α) (c : ℝ) :
    (l.map fun _ => c).sum = l.length * c := by
  induction l with
  | nil => simp
  | cons a t ih =>
    simp only [List.map_cons, List.sum_cons, ih, List.length_cons]
    push_cast
    ring

lemma centered_sum_zero (xs : List ℝ) :
    (xs.map fun x => x - listMean xs).sum = 0 := by
  rcases eq_or_ne xs [] with h | h
  · simp [h]
  · have hn : (xs.length : ℝ) ≠ 0 := by
      have := List.length_pos.mpr h
      positivity
    rw [listSum_map_sub (fun x => x) (fun _ => listMean xs), listSum_map_const,
      listMean]
    have hmap : (xs.map fun x => x) = xs := List.map_id xs
    rw [hmap]
    field_simp

lemma standardize_length (xs : List ℝ) :
    (standardizeColumn xs).length = xs.length := by
  simp [standardizeColumn]

lemma standardize_mean_zero (xs : List ℝ) :
    listMean (standardizeColumn xs) = 0 := by
  have hsum : (standardizeColumn xs).sum = 0 := by
    rw [standardizeColumn]
    have hfun : (xs.map fun x => (x - listMean xs) / sampleStd xs) =
        xs.map fun x => (x - listMean xs) * (sampleStd xs)⁻¹ := by
      simp [div_eq_mul_inv]
    rw [hfun, List.sum_map_mul_right, centered_sum_zero, zero_mul]
  rw [listMean, hsum, zero_div]

lemma var_pos_of_std_pos {xs : List ℝ} (h : 0 < sampleStd xs) :
    0 < sampleVar xs := by
  by_contra hc
  push_neg at hc
  rw [sampleStd, Real.sqrt_eq_zero'.mpr hc] at h
  exact lt_irrefl 0 h

lemma sq_sampleStd {xs : List ℝ} (h : 0 < sampleVar xs) :
    sampleStd xs ^ 2 = sampleVar xs := by
  rw [sampleStd]
  exact Real.sq_sqrt h.le

lemma standardize_var_one (xs : List ℝ) (hs : 0 < sampleStd xs) :
    sampleVar (standardizeColumn xs) = 1 := by
  have hv := var_pos_of_std_pos hs
  have hS : (xs.map fun x => (x - listMean xs) ^ 2).sum ≠ 0 := by
    intro h0
    rw [sampleVar, h0, zero_div] at hv
    exact lt_irrefl 0 hv
  have hd : ((xs.length : ℝ) - 1) ≠ 0 := by
    intro h0
    rw [sampleVar, h0, div_zero] at hv
    exact lt_irrefl 0 hv
  rw [sampleVar, standardize_mean_zero, standardize_length, standardizeColumn,
    List.map_map]
  have hfun : ((fun z => (z - 0) ^ 2) ∘ fun x => (x - listMean xs) / sampleStd xs) =
      fun x => (x - listMean xs) ^ 2 * (sampleStd xs ^ 2)⁻¹ := by
    funext x
    simp only [Function.comp, sub_zero, div_eq_mul_inv]
    rw [mul_pow, inv_pow]
  rw [hfun, List.sum_map_mul_right, sq_sampleStd hv, sampleVar]
  field_simp

lemma standardize_std_one (xs : List ℝ) (hs : 0 < sampleStd xs) :
    sampleStd (standardizeColumn xs) = 1 := by
  rw [sampleStd, standardize_var_one xs hs, Real.sqrt_one]

lemma cov_standardize_right (xs ys : List ℝ) :
    sampleCov xs (standardizeColumn ys) =
      sampleCov xs ys * (sampleStd ys)⁻¹ := by
  rw [sampleCov, sampleCov, standardize_mean_zero, standardizeColumn,
    List.zip_map_right, List.map_map]
  have hfun : ((fun p : ℝ × ℝ => (p.1 - listMean xs) * (p.2 - 0)) ∘
      Prod.map id fun y => (y - listMean ys) / sampleStd ys) =
      fun p : ℝ × ℝ =>
        ((p.1 - listMean xs) * (p.2 - listMean ys)) * (sampleStd ys)⁻¹ := by
    funext p
    simp [Function.comp, Prod.map, div_eq_mul_inv]
    ring
  rw [hfun, List.sum_map_mul_right]
  ring

/-- Claim C6: with the standardize option on, `math_score` becomes its
Z-score over the current data, `(x - mean) / std`; for a non-empty series
with positive standard deviation the result has mean 0 and sample
standard deviation 1. -/
theorem c6_standardize_zscore (xs : List ℝ) (hne : xs ≠ [])
    (hs : 0 < sampleStd xs) :
    standardizeColumn xs = xs.map (fun x => (x - listMean xs) / sampleStd xs)
    ∧ listMean (standardizeColumn xs) = 0
    ∧ sampleStd (standardizeColumn xs) = 1 :=
  ⟨rfl, standardize_mean_zero xs, standardize_std_one xs hs⟩

/-- Witness for C6 on the concrete series `[0, 2]`. -/
theorem c6_standardize_zscore_witness :
    0 < sampleStd ([0, 2] : List ℝ)
    ∧ listMean (standardizeColumn ([0, 2] : List ℝ)) = 0
    ∧ sampleStd (standardizeColumn ([0, 2] : List ℝ)) = 1 := by
  have hs : 0 < sampleStd ([0, 2] : List ℝ) := by
    rw [sampleStd]
    exact Real.sqrt_pos.mpr (by norm_num [sampleVar, listMean])
  exact ⟨hs, (c6_standardize_zscore [0, 2] (by simp) hs).2⟩

/-- Claim C10: the displayed Pearson correlation between the temperature
column and `math_score` is unchanged by the standardize option whenever
the `math_score` column has positive standard deviation. -/
theorem c10_corr_invariant (xs ys : List ℝ) (hne : ys ≠ [])
    (hs : 0 < sampleStd ys) :
    pearsonCorr xs (standardizeColumn ys) = pearsonCorr xs ys := by
  rw [pearsonCorr, pearsonCorr, cov_standardize_right,
    standardize_std_one ys hs, mul_one, ← div_eq_mul_inv, div_div, mul_comm]

/-- Witness for C10 with temperatures `[1, 2]` and scores `[1, 5]`. -/
theorem c10_corr_invariant_witness :
    0 < sampleStd ([1, 5] : List ℝ)
    ∧ pearsonCorr [1, 2] (standardizeColumn ([1, 5] : List ℝ)) =
        pearsonCorr [1, 2] [1, 5] := by
  have hs : 0 < sampleStd ([1, 5] : List ℝ) := by
    rw [sampleStd]
    exact Real.sqrt_pos.mpr (by norm_num [sampleVar, listMean])
  exact ⟨hs, c10_corr_invariant [1, 2] [1, 5] (by simp) hs⟩
